import Mathlib

/-!
Verification of the VCP (Volatility Contraction Pattern) detector of
`vcp_ultimate_algorithm.py` against its natural-language specification.

The Python code is shallowly embedded: prices and volumes are modelled as
rationals (the source computes in IEEE floats via numpy/pandas; claims are
about the real-number behaviour, and all inputs used in concrete evaluations
keep the two in agreement), dates are integer day numbers, pandas frames are
structures of equal-length lists, and the one operation that can raise a
Python exception that escapes to `detect_vcp`'s handler (the integer division
`decreasing_count / (len(contractions) - 1)` at exactly one contraction) is
modelled with `Except`.  numpy float divisions never raise in the source
(`x / 0.0` on `np.float64` yields `±inf`/`nan` with warnings suppressed), so
at each such site the embedding reproduces the comparison outcome the
infinite/nan value would produce rather than raising.
-/

/-- A pandas DataFrame with OHLCV columns, date index ascending.  The three
`MA_*` fields model the columns that `_check_trend_template` assigns onto the
input frame (absent on frames coming from the fetcher). -/
structure PriceFrame where
  dates : List Int
  Open : List ℚ
  High : List ℚ
  Low : List ℚ
  Close : List ℚ
  Volume : List ℚ
  MA_50 : Option (List (Option ℚ)) := none
  MA_150 : Option (List (Option ℚ)) := none
  MA_200 : Option (List (Option ℚ)) := none
deriving Repr, DecidableEq

/-- A swing point as built by `_find_swing_points`
(the dict `{date, price, index}`). -/
structure SwingPoint where
  date : Int
  price : ℚ
  index : Nat
deriving Repr, DecidableEq, Inhabited

/-- `@dataclass Contraction` of the source. -/
structure Contraction where
  start_date : Int
  end_date : Int
  high_price : ℚ
  low_price : ℚ
  percent_drop : ℚ
  avg_volume : ℚ
  duration_days : Int
deriving Repr, DecidableEq, Inhabited

/-- `@dataclass VCPSignal` of the source, with its field defaults. -/
structure VCPSignal where
  symbol : String
  detected : Bool
  pivot_price : Option ℚ := none
  contractions : Option (List Contraction) := none
  confidence_score : ℚ := 0
  trend_strength : ℚ := 0
  volume_dry_up : Bool := false
  final_contraction_tightness : Option ℚ := none
  breakout_detected : Bool := false
  signal_date : Option Int := none
  notes : List String := []
deriving Repr, DecidableEq

/-- The `VCPDetector.__init__` parameters with their source defaults. -/
structure VCPConfig where
  min_price : ℚ := 10
  min_volume : ℚ := 500000
  min_contractions : Nat := 2
  max_contractions : Nat := 6
  max_base_depth : ℚ := 35/100
  final_contraction_max : ℚ := 10/100
  breakout_volume_multiplier : ℚ := 3/2
  check_trend_template : Bool := true
deriving Repr, DecidableEq

/-! ### List helpers mirroring pandas/numpy access -/

/-- Python slice `l[a:b]` for non-negative indices. -/
def pySlice (l : List ℚ) (a b : Nat) : List ℚ := (l.drop a).take (b - a)

/-- Python slice `l[-n:]` (the last `n` entries, or all of them). -/
def lastN (n : Nat) (l : List ℚ) : List ℚ := l.drop (l.length - n)

/-- Python slice `l[-a:-b]` (used as `iloc[-30:-10]`). -/
def pySliceNeg (l : List ℚ) (a b : Nat) : List ℚ :=
  pySlice l (l.length - a) (l.length - b)

def listSum (l : List ℚ) : ℚ := l.foldl (· + ·) 0

/-- `Series.mean()`.  On an empty series pandas yields `nan`; every call site
below is guarded so the slice is non-empty, and `0/0 = 0` junk is unreachable
on those paths. -/
def listMean (l : List ℚ) : ℚ := listSum l / (l.length : ℚ)

/-- `max()` of a series (call sites guarantee non-emptiness). -/
def listMax (l : List ℚ) : ℚ :=
  match l with
  | [] => 0
  | x :: xs => xs.foldl max x

/-- `min()` of a series (call sites guarantee non-emptiness). -/
def listMin (l : List ℚ) : ℚ :=
  match l with
  | [] => 0
  | x :: xs => xs.foldl min x

/-- `Series.rolling(n).mean()`: entry `i` is the mean of the `n` values
ending at `i`, `NaN` (here `none`) while fewer than `n` values exist. -/
def rollingMean (n : Nat) (l : List ℚ) : List (Option ℚ) :=
  (List.range l.length).map fun i =>
    if n ≤ i + 1 then some (listMean (pySlice l (i + 1 - n) (i + 1))) else none

/-- `a > b` where `b` is a rolling-mean entry: any comparison against `NaN`
is false in Python. -/
def gtO (a : ℚ) (b : Option ℚ) : Bool :=
  match b with
  | some v => decide (v < a)
  | none => false

/-- `a > b` for two rolling-mean entries (false as soon as one is `NaN`). -/
def ogtO (a b : Option ℚ) : Bool :=
  match a, b with
  | some x, some y => decide (y < x)
  | _, _ => false

/-! ### Detector stages -/

/-- `VCPDetector._validate_data`.  The embedding's frames always carry the
five OHLCV columns, so the missing-column branch of the source cannot fire
here.  Returns the verdict and the notes appended to the signal.  Numeric
formatting of the source's f-strings is abstracted by `toString`. -/
def validate_data (cfg : VCPConfig) (df : PriceFrame) : Bool × List String :=
  if df.dates.length < 60 then
    (false, ["Insufficient data points (need 60+ days)"])
  else
    let current_price := df.Close.getLastD 0
    let avg_volume := listMean (lastN 50 df.Volume)
    if current_price < cfg.min_price then
      (false, ["Price " ++ toString current_price ++ " below minimum " ++
        toString cfg.min_price])
    else if avg_volume < cfg.min_volume then
      (false, ["Volume " ++ toString avg_volume ++ " below minimum " ++
        toString cfg.min_volume])
    else (true, [])

/-- The eight trend-template criteria of `_check_trend_template`, in source
order.  `low_52w > 0` and `high_52w > 0` guards are the source's; criterion 8
divides by `close[-126]` as an `np.float64`, which at zero yields `±inf`/`nan`
whose comparison with `0.1` is `close > 0`. -/
def trendCriteria (df : PriceFrame) : List Bool :=
  let n := df.dates.length
  let price := df.Close.getLastD 0
  let ma50 := (rollingMean 50 df.Close).getLastD none
  let ma150 := (rollingMean 150 df.Close).getLastD none
  let ma200 := (rollingMean 200 df.Close).getLastD none
  let ma200_20d_ago :=
    if 20 ≤ n then (rollingMean 200 df.Close).getD (n - 20) none else ma200
  let high_52w := listMax (lastN 252 df.High)
  let low_52w := listMin (lastN 252 df.Low)
  [ gtO price ma150 && gtO price ma200,
    ogtO ma150 ma200,
    ogtO ma200 ma200_20d_ago,
    ogtO ma50 ma150 && ogtO ma50 ma200,
    gtO price ma50,
    if 0 < low_52w then decide ((price - low_52w) / low_52w ≥ 30/100) else false,
    if 0 < high_52w then decide ((high_52w - price) / high_52w ≤ 25/100) else false,
    if 126 ≤ n then
      let price_6m_ago := df.Close.getD (n - 126) 0
      if price_6m_ago = 0 then decide (0 < price)
      else decide ((price - price_6m_ago) / price_6m_ago > 10/100)
    else true ]

/-- Count of passing trend-template criteria (`passed_criteria`). -/
def passedCriteria (df : PriceFrame) : Nat := (trendCriteria df).count true

/-- The frame after `_check_trend_template`'s three column assignments. -/
def assignMAs (df : PriceFrame) : PriceFrame :=
  { df with
    MA_50 := some (rollingMean 50 df.Close)
    MA_150 := some (rollingMean 150 df.Close)
    MA_200 := some (rollingMean 200 df.Close) }

/-- `VCPDetector._check_trend_template`: mutates the frame (MA columns), sets
`trend_strength := k/8`, admits iff at least 6 criteria pass, and notes the
rejection.  For frames of length ≥ 60 no exception can occur in the source
body, so its `except` clause is dead and is not modelled. -/
def check_trend_template (df : PriceFrame) (sig : VCPSignal) :
    Bool × VCPSignal × PriceFrame :=
  let df' := assignMAs df
  let passed := passedCriteria df'
  let sig' := { sig with trend_strength := (passed : ℚ) / 8 }
  if 6 ≤ passed then (true, sig', df')
  else
    (false,
     { sig' with notes := sig'.notes ++
         ["Trend Template: " ++ toString passed ++ "/8 criteria passed"] },
     df')

/-- `VCPDetector._find_swing_points` (window fixed to its default 5 by every
caller). -/
def find_swing_points (df : PriceFrame) (window : Nat := 5) :
    List SwingPoint × List SwingPoint :=
  let highs := df.High
  let lows := df.Low
  let n := highs.length
  let idxs := (List.range n).filter fun i => window ≤ i && i + window < n
  let swing_highs := idxs.filterMap fun i =>
    if highs.getD i 0 = listMax (pySlice highs (i - window) (i + window + 1)) then
      some { date := df.dates.getD i 0, price := highs.getD i 0, index := i }
    else none
  let swing_lows := idxs.filterMap fun i =>
    if lows.getD i 0 = listMin (pySlice lows (i - window) (i + window + 1)) then
      some { date := df.dates.getD i 0, price := lows.getD i 0, index := i }
    else none
  (swing_highs, swing_lows)

/-- `min(corresponding_lows, key=lambda x: x['price'])`: Python's `min`
returns the first element attaining the minimal key. -/
def minByPrice : SwingPoint → List SwingPoint → SwingPoint
  | m, [] => m
  | m, y :: ys => if y.price < m.price then minByPrice y ys else minByPrice m ys

/-- Length of the recent analysis window (`min(60, len(df) // 2)`). -/
def recentPeriod (df : PriceFrame) : Nat := min 60 (df.dates.length / 2)

/-- `base_start = len(df) - recent_period`. -/
def baseStart (df : PriceFrame) : Nat := df.dates.length - recentPeriod df

/-- Swing points restricted to the recent window (`index >= base_start`). -/
def recentOf (df : PriceFrame) (pts : List SwingPoint) : List SwingPoint :=
  pts.filter fun p => baseStart df ≤ p.index

/-- Python's stable ascending sort by the `date` key. -/
def sortByDate (pts : List SwingPoint) : List SwingPoint :=
  List.insertionSort (fun a b => a.date ≤ b.date) pts

/-- Python's stable ascending sort of contractions by `start_date`. -/
def sortByStart (cs : List Contraction) : List Contraction :=
  List.insertionSort (fun a b => a.start_date ≤ b.start_date) cs

/-- The recent swing points in the date order the assembly loop visits. -/
def recentSorted (df : PriceFrame) (pts : List SwingPoint) : List SwingPoint :=
  sortByDate (recentOf df pts)

/-- `[l for l in recent_lows if l['date'] > high_point['date']]`. -/
def subsequentLows (rl : List SwingPoint) (h : SwingPoint) : List SwingPoint :=
  rl.filter fun l => h.date < l.date

/-- The contraction built from swing high `h` and swing low `l`
(the body of the `if corresponding_lows:` branch). -/
def mkContraction (df : PriceFrame) (h l : SwingPoint) : Contraction :=
  { start_date := h.date
    end_date := l.date
    high_price := h.price
    low_price := l.price
    percent_drop := (h.price - l.price) / h.price
    avg_volume := listMean (pySlice df.Volume h.index (l.index + 1))
    duration_days := l.date - h.date }

/-- One iteration of the assembly loop: the contraction for the `i`-th recent
high, if it has any swing low strictly after its date. -/
def contractionAt (df : PriceFrame) (rh rl : List SwingPoint) (i : Nat) :
    Option Contraction :=
  let h := rh.getD i default
  match subsequentLows rl h with
  | [] => none
  | x :: xs => some (mkContraction df h (minByPrice x xs))

/-- `VCPDetector._identify_contractions`. -/
def identify_contractions (df : PriceFrame) (swing_highs swing_lows : List SwingPoint) :
    Nat × List Contraction :=
  let base_start := baseStart df
  let recent_highs := recentOf df swing_highs
  let recent_lows := recentOf df swing_lows
  if recent_highs.length < 2 || recent_lows.length < 2 then
    (base_start, [])
  else
    let rh := recentSorted df swing_highs
    let rl := recentSorted df swing_lows
    let contractions := (List.range (rh.length - 1)).filterMap (contractionAt df rh rl)
    (base_start, sortByStart contractions)

/-- Sign-relevant part of `np.polyfit(range(n), volumes, 1)[0]`: the exact
least-squares slope numerator-over-denominator (denominator positive for
`n ≥ 2`; the source only tests `slope > 0`). -/
def volumeSlope (vols : List ℚ) : ℚ :=
  let n : ℚ := vols.length
  let xs := (List.range vols.length).map (fun i => (i : ℚ))
  let sx := listSum xs
  let sy := listSum vols
  let sxy := listSum ((xs.zip vols).map fun p => p.1 * p.2)
  let sxx := listSum (xs.map fun x => x * x)
  (n * sxy - sx * sy) / (n * sxx - sx * sx)

/-- `contractions[-self.max_contractions:]` — note Python's `l[-0:]` is the
whole list, so `max_contractions = 0` keeps everything. -/
def keepLast (m : Nat) (cs : List Contraction) : List Contraction :=
  if m = 0 then cs else cs.drop (cs.length - m)

/-- Number of adjacent pairs with non-increasing `percent_drop`
(`decreasing_count`). -/
def decreasingCount (cs : List Contraction) : Nat :=
  ((cs.zip cs.tail).filter fun p => p.2.percent_drop ≤ p.1.percent_drop).length

/-- The base-depth rejection condition of `_validate_vcp_pattern` (check 3).
The division is numpy-float and never raises; at `max_high = 0` it yields
`±inf`/`nan`, whose comparison with `max_base_depth` is `min_low < 0`. -/
def baseDepthExceeded (cfg : VCPConfig) (cs : List Contraction) : Bool :=
  let max_high := listMax (cs.map (·.high_price))
  let min_low := listMin (cs.map (·.low_price))
  if max_high = 0 then decide (min_low < 0)
  else decide (cfg.max_base_depth < (max_high - min_low) / max_high)

/-- The base-depth value quoted in the rejection note. -/
def baseDepth (cs : List Contraction) : ℚ :=
  (listMax (cs.map (·.high_price)) - listMin (cs.map (·.low_price))) /
    listMax (cs.map (·.high_price))

/-- Checks 1-4 of `_validate_vcp_pattern`, applied to the (possibly
truncated) contraction list `cs`.  The only genuine Python exception of the
detector occurs here: `decreasing_count / (len(contractions) - 1)` is an
int/int true division and raises `ZeroDivisionError` at exactly one
contraction. -/
def validate_vcp_checks (cfg : VCPConfig) (cs : List Contraction)
    (sig : VCPSignal) : Except String (Bool × VCPSignal) :=
  if cs.length = 1 then .error "division by zero"
  else if (decreasingCount cs : ℚ) / ((cs.length : ℚ) - 1) < 60/100 then
    .ok (false, { sig with notes := sig.notes ++
      ["Contractions not sufficiently decreasing"] })
  else if cfg.final_contraction_max < (cs.getLastD default).percent_drop then
    .ok (false, { sig with notes := sig.notes ++
      ["Final contraction " ++ toString (cs.getLastD default).percent_drop ++
       " too wide"] })
  else if baseDepthExceeded cfg cs then
    .ok (false, { sig with notes := sig.notes ++
      ["Base too deep: " ++ toString (baseDepth cs)] })
  else if 3 ≤ cs.length && decide (0 < volumeSlope (cs.map (·.avg_volume))) then
    .ok (true, { sig with notes := sig.notes ++
      ["Volume not decreasing through pattern"] })
  else .ok (true, sig)

/-- `VCPDetector._validate_vcp_pattern`: the count gate, the local truncation
to the most recent `max_contractions` (the caller's list is untouched), then
checks 1-4. -/
def validate_vcp_pattern (cfg : VCPConfig) (contractions : List Contraction)
    (sig : VCPSignal) : Except String (Bool × VCPSignal) :=
  if contractions.length < cfg.min_contractions then .ok (false, sig)
  else
    validate_vcp_checks cfg
      (if cfg.max_contractions < contractions.length then
        keepLast cfg.max_contractions contractions
      else contractions) sig

/-- `VCPDetector._calculate_pivot_price`. -/
def calculate_pivot_price (df : PriceFrame) (contractions : List Contraction) : ℚ :=
  if contractions.isEmpty then df.Close.getLastD 0 * (105/100)
  else listMax (contractions.map (·.high_price)) * (101/100)

/-- `VCPDetector._calculate_trend_strength`: the MA20/MA50 rubric.  No body
operation can raise for frames of length ≥ 50, so the source's
`except: return 0.5` is dead on every reachable call. -/
def calculate_trend_strength (df : PriceFrame) : ℚ :=
  let n := df.dates.length
  if n < 50 then 1/2
  else
    let price := df.Close.getLastD 0
    let ma20 := listMean (lastN 20 df.Close)
    let ma50 := listMean (lastN 50 df.Close)
    let score : ℚ :=
      (if ma20 < price then 3/10 else 0) +
      (if ma50 < price then 3/10 else 0) +
      (if df.Close.getD (n - 10) 0 < price then 2/10 else 0) +
      (if listMean (pySliceNeg df.Volume 30 10) < listMean (lastN 10 df.Volume)
        then 2/10 else 0)
    min 1 score

/-- `VCPDetector._check_volume_dry_up`.  The division is numpy-float: at
`previous_volume = 0` it yields `±inf`/`nan` and the `> 0.2` test becomes
`recent_volume < 0` (never an exception despite the source's `try`). -/
def check_volume_dry_up (contractions : List Contraction) : Bool :=
  if contractions.length < 2 then false
  else
    let recent_volume := (contractions.getLastD default).avg_volume
    let previous_volume := (contractions.getD (contractions.length - 2) default).avg_volume
    if previous_volume = 0 then decide (recent_volume < 0)
    else decide (20/100 < (previous_volume - recent_volume) / previous_volume)

/-- `VCPDetector._check_breakout`. -/
def check_breakout (cfg : VCPConfig) (df : PriceFrame) (pivot_price : ℚ) : Bool :=
  let current_price := df.Close.getLastD 0
  let current_volume := df.Volume.getLastD 0
  let avg_volume := listMean (lastN 50 df.Volume)
  decide (pivot_price < current_price) &&
    decide (avg_volume * cfg.breakout_volume_multiplier < current_volume)

/-- `VCPDetector._calculate_confidence_score`.  The final-tightness block is
guarded by Python truthiness (`if signal.final_contraction_tightness:`), so
both `None` and exactly `0.0` skip the bonus. -/
def calculate_confidence_score (sig : VCPSignal) (num_contractions : Nat)
    (volume_dry_up volatility_compressed : Bool) : ℚ :=
  let score : ℚ := sig.trend_strength * 30
  let score := score +
    (if 3 ≤ num_contractions ∧ num_contractions ≤ 4 then 20
     else if 2 ≤ num_contractions ∧ num_contractions ≤ 5 then 10 else 0)
  let score := score + (if volume_dry_up then 20 else 0)
  let score := score + (if volatility_compressed then 15 else 0)
  let score := score +
    (match sig.final_contraction_tightness with
     | none => 0
     | some t =>
       if t = 0 then 0
       else if t ≤ 5/100 then 15
       else if t ≤ 8/100 then 10
       else if t ≤ 10/100 then 5
       else 0)
  min 100 (max 0 score)

/-- The part of `detect_vcp`'s `try` block after the trend-template gate:
swing extraction, contraction assembly, pattern validation, and (on success)
the enrichment of the signal with metrics, score and breakout.  `df` is the
frame the earlier stages left behind and `sig` the signal accumulated so far.
`.error (e, sig)` models a raised exception with text `e` while the signal
held `sig`. -/
def detect_after_gate (cfg : VCPConfig) (df : PriceFrame) (sig : VCPSignal) :
    Except (String × VCPSignal) VCPSignal × PriceFrame :=
  let swing_highs := (find_swing_points df).1
  let swing_lows := (find_swing_points df).2
  if swing_highs.length < cfg.min_contractions ||
      swing_lows.length < cfg.min_contractions then
    (.ok { sig with notes := sig.notes ++
      ["Insufficient swing points for pattern analysis"] }, df)
  else
    let contractions := (identify_contractions df swing_highs swing_lows).2
    if contractions.length < cfg.min_contractions then
      (.ok { sig with notes := sig.notes ++
        ["Only " ++ toString contractions.length ++
         " contractions found, need " ++ toString cfg.min_contractions] }, df)
    else
      match validate_vcp_pattern cfg contractions sig with
      | .error e => (.error (e, sig), df)
      | .ok (false, sig) => (.ok sig, df)
      | .ok (true, sig) =>
        let sig := { sig with
          detected := true
          contractions := some contractions
          signal_date := some (df.dates.getLastD 0) }
        let pivot := calculate_pivot_price df contractions
        let sig := { sig with
          pivot_price := some pivot
          trend_strength := calculate_trend_strength df
          volume_dry_up := check_volume_dry_up contractions
          final_contraction_tightness :=
            some ((contractions.getLastD default).percent_drop) }
        let sig := { sig with
          confidence_score := calculate_confidence_score sig
            contractions.length sig.volume_dry_up true }
        let sig := { sig with
          breakout_detected := check_breakout cfg df pivot
          notes := sig.notes ++
            ["VCP detected with " ++ toString contractions.length ++
             " contractions"] }
        (.ok sig, df)

/-- The body of `detect_vcp`'s `try` block: data validation and the optional
trend-template gate, then `detect_after_gate`. -/
def detect_vcp_inner (cfg : VCPConfig) (df : PriceFrame) (symbol : String) :
    Except (String × VCPSignal) VCPSignal × PriceFrame :=
  let sig : VCPSignal := { symbol := symbol, detected := false, notes := [] }
  let sig := { sig with notes := sig.notes ++ (validate_data cfg df).2 }
  if !(validate_data cfg df).1 then (.ok sig, df)
  else if cfg.check_trend_template then
    let gate := check_trend_template df sig
    if !gate.1 then (.ok gate.2.1, gate.2.2)
    else detect_after_gate cfg gate.2.2 gate.2.1
  else detect_after_gate cfg df sig

/-- `VCPDetector.detect_vcp`: the `try/except` wrapper.  A caught exception is
reported on the signal accumulated so far. -/
def detect_vcp (cfg : VCPConfig) (df : PriceFrame) (symbol : String) :
    VCPSignal × PriceFrame :=
  match detect_vcp_inner cfg df symbol with
  | (.ok sig, df') => (sig, df')
  | (.error (e, sig), df') =>
    ({ sig with notes := sig.notes ++ ["Error in VCP detection: " ++ e] }, df')

/-- One loop iteration of `scan_for_vcp`, as the signal it contributes: a
fetcher throw or a `None` frame is skipped, and only detected signals are
collected. -/
def pickSignal (cfg : VCPConfig) (data_fetcher : String → Except String (Option PriceFrame))
    (ticker : String) : Option VCPSignal :=
  match data_fetcher ticker with
  | .error _ => none
  | .ok none => none
  | .ok (some df) =>
    let s := (detect_vcp cfg df ticker).1
    if s.detected then some s else none

/-- `scan_for_vcp`: collect detected signals in ticker order, then
`signals.sort(key=confidence, reverse=True)` — Python's sort is stable, so
equal confidences keep collection order. -/
def scan_for_vcp (tickers : List String)
    (data_fetcher : String → Except String (Option PriceFrame))
    (cfg : VCPConfig) : List VCPSignal :=
  let signals := tickers.foldl (fun acc ticker =>
    match data_fetcher ticker with
    | .error _ => acc
    | .ok none => acc
    | .ok (some df) =>
      let s := (detect_vcp cfg df ticker).1
      if s.detected then acc ++ [s] else acc) []
  List.insertionSort (fun a b => b.confidence_score ≤ a.confidence_score) signals

/-! ### Order instances for the stable sorts -/

instance : IsTotal SwingPoint (fun a b => a.date ≤ b.date) :=
  ⟨fun a b => Int.le_total a.date b.date⟩

instance : IsTrans SwingPoint (fun a b => a.date ≤ b.date) :=
  ⟨fun _ _ _ h1 h2 => le_trans h1 h2⟩

instance : IsTotal Contraction (fun a b => a.start_date ≤ b.start_date) :=
  ⟨fun a b => Int.le_total a.start_date b.start_date⟩

instance : IsTrans Contraction (fun a b => a.start_date ≤ b.start_date) :=
  ⟨fun _ _ _ h1 h2 => le_trans h1 h2⟩

instance : IsTotal VCPSignal (fun a b => b.confidence_score ≤ a.confidence_score) :=
  ⟨fun a b => (le_total b.confidence_score a.confidence_score)⟩

instance : IsTrans VCPSignal (fun a b => b.confidence_score ≤ a.confidence_score) :=
  ⟨fun _ _ _ h1 h2 => le_trans h2 h1⟩

/-! ### The spec's confidence rubric (for comparison against the code)

Modelled from the spec: §4.7's additive rubric, in which the final-tightness
row reads "≤0.05→15; ≤0.08→10; ≤0.10→5; else 0" with no exception for a
tightness of exactly zero. -/
def confidence_rubric_spec (trend_strength : ℚ) (num_contractions : Nat)
    (volume_dry_up : Bool) (tightness : ℚ) : ℚ :=
  let score : ℚ := trend_strength * 30
  let score := score +
    (if 3 ≤ num_contractions ∧ num_contractions ≤ 4 then 20
     else if 2 ≤ num_contractions ∧ num_contractions ≤ 5 then 10 else 0)
  let score := score + (if volume_dry_up then 20 else 0)
  let score := score + 15
  let score := score +
    (if tightness ≤ 5/100 then 15
     else if tightness ≤ 8/100 then 10
     else if tightness ≤ 10/100 then 5
     else 0)
  min 100 (max 0 score)

/-- The rubric the code actually implements, as a function of the final
signal fields: identical to `confidence_rubric_spec` except that a missing
tightness or a tightness of exactly 0 contributes no points. -/
def confidence_rubric_code (trend_strength : ℚ) (num_contractions : Nat)
    (volume_dry_up : Bool) (tightness : Option ℚ) : ℚ :=
  let score : ℚ := trend_strength * 30
  let score := score +
    (if 3 ≤ num_contractions ∧ num_contractions ≤ 4 then 20
     else if 2 ≤ num_contractions ∧ num_contractions ≤ 5 then 10 else 0)
  let score := score + (if volume_dry_up then 20 else 0)
  let score := score + 15
  let score := score +
    (match tightness with
     | none => 0
     | some t =>
       if t = 0 then 0
       else if t ≤ 5/100 then 15
       else if t ≤ 8/100 then 10
       else if t ≤ 10/100 then 5
       else 0)
  min 100 (max 0 score)

/-! ### Concrete inputs used in counterexamples and witnesses

Sixty daily bars each.  The `High` series ride on a strictly increasing
baseline (so a bar ties its rolling window only where a peak is planted) and
the `Low` series on a strictly decreasing one (dually for troughs); `Close`
and `Volume` are constant and comfortably above the default floors. -/

def buildQ (f : Nat → ℚ) : List ℚ := (List.range 60).map f

/-- Four swing highs (bars 30, 36, 42, 48) and four swing lows
(33, 39, 45, 51): the assembler yields three contractions. -/
def frameA : PriceFrame :=
  { dates := (List.range 60).map Int.ofNat
    Open := buildQ fun _ => 50
    High := buildQ fun i =>
      if i = 30 then 100 else if i = 36 then 99 else if i = 42 then 98
      else if i = 48 then 97 else (i : ℚ)
    Low := buildQ fun i =>
      if i = 33 then 95 else if i = 39 then 94 else if i = 45 then 93
      else if i = 51 then 92 + 4/5 else 500 - (i : ℚ)
    Close := buildQ fun _ => 50
    Volume := buildQ fun _ => 1000000 }

/-- Trend gate bypassed and at most two contractions allowed. -/
def cfgA : VCPConfig :=
  { min_contractions := 2, max_contractions := 2, check_trend_template := false }

/-- Swing highs at bars 32, 40, 52 and swing lows at 36 (price 90) and
46 (price 98 — exactly the price of the high at 40): the final contraction
has `percent_drop = 0`. -/
def frameB : PriceFrame :=
  { dates := (List.range 60).map Int.ofNat
    Open := buildQ fun _ => 50
    High := buildQ fun i =>
      if i = 32 then 100 else if i = 40 then 98 else if i = 52 then 97 else (i : ℚ)
    Low := buildQ fun i =>
      if i = 36 then 90 else if i = 46 then 98 else 500 - (i : ℚ)
    Close := buildQ fun _ => 50
    Volume := buildQ fun _ => 1000000 }

/-- Default parameters with the trend gate bypassed. -/
def cfgB : VCPConfig := { check_trend_template := false }

/-- Two swing highs (35, 45) and two swing lows (38, 48) but a single
contraction: with `min_contractions := 1` the pattern validator divides by
`len(contractions) - 1 = 0`. -/
def frameC : PriceFrame :=
  { dates := (List.range 60).map Int.ofNat
    Open := buildQ fun _ => 50
    High := buildQ fun i =>
      if i = 35 then 100 else if i = 45 then 101 else (i : ℚ)
    Low := buildQ fun i =>
      if i = 38 then 1 else if i = 48 then 1/2 else 500 - (i : ℚ)
    Close := buildQ fun _ => 50
    Volume := buildQ fun _ => 1000000 }

/-- Accepts a single contraction; gate bypassed. -/
def cfgC : VCPConfig := { min_contractions := 1, check_trend_template := false }

/-- A frame with no bars at all: rejected by the data validator. -/
def frameE : PriceFrame :=
  { dates := [], Open := [], High := [], Low := [], Close := [], Volume := [] }

/-- A featureless 60-bar frame used when the assembler is driven with
explicitly chosen swing points. -/
def dfPlain : PriceFrame :=
  { dates := (List.range 60).map Int.ofNat
    Open := buildQ fun _ => 50
    High := buildQ fun _ => 50
    Low := buildQ fun _ => 40
    Close := buildQ fun _ => 50
    Volume := buildQ fun _ => 1000000 }

/-- Two recent swing highs; the later one (bar 50) has a subsequent low. -/
def shC2 : List SwingPoint :=
  [{ date := 40, price := 100, index := 40 }, { date := 50, price := 90, index := 50 }]

/-- Two recent swing lows, both after the first high, one after the second. -/
def slC2 : List SwingPoint :=
  [{ date := 42, price := 80, index := 42 }, { date := 55, price := 70, index := 55 }]

/-- Swing highs for the C9 counterexample. -/
def shC9 : List SwingPoint :=
  [{ date := 40, price := 100, index := 40 }, { date := 50, price := 90, index := 50 }]

/-- Swing lows whose prices equal the first high's price: the resulting
contraction has `high_price = low_price` and `percent_drop = 0`. -/
def slC9 : List SwingPoint :=
  [{ date := 42, price := 100, index := 42 }, { date := 55, price := 100, index := 55 }]

/-! ### Generic lemmas -/

lemma length_filterMap_eq_length_filter {α β : Type} (f : α → Option β) (l : List α) :
    (l.filterMap f).length = (l.filter (fun a => (f a).isSome)).length := by
  induction l with
  | nil => rfl
  | cons x xs ih =>
    cases hfx : f x <;>
      simp [List.filterMap_cons, List.filter_cons, hfx, ih]

/-! ### Lemmas about `minByPrice` (Python's first-minimum `min`) -/

lemma minByPrice_price_le (m : SwingPoint) (l : List SwingPoint) :
    (minByPrice m l).price ≤ m.price ∧ ∀ y ∈ l, (minByPrice m l).price ≤ y.price := by
  induction l generalizing m with
  | nil => exact ⟨le_refl _, fun y hy => absurd hy (List.not_mem_nil y)⟩
  | cons z zs ih =>
    by_cases hz : z.price < m.price
    · have h := ih z
      refine ⟨?_, ?_⟩
      · simpa [minByPrice, hz] using le_trans h.1 (le_of_lt hz)
      · intro y hy
        rcases List.mem_cons.mp hy with rfl | hy
        · simpa [minByPrice, hz] using h.1
        · simpa [minByPrice, hz] using h.2 y hy
    · have h := ih m
      refine ⟨?_, ?_⟩
      · simpa [minByPrice, hz] using h.1
      · intro y hy
        rcases List.mem_cons.mp hy with rfl | hy
        · have := le_trans h.1 (not_lt.mp hz)
          simpa [minByPrice, hz] using this
        · simpa [minByPrice, hz] using h.2 y hy

lemma minByPrice_mem (m : SwingPoint) (l : List SwingPoint) :
    minByPrice m l = m ∨ minByPrice m l ∈ l := by
  induction l generalizing m with
  | nil => exact Or.inl rfl
  | cons z zs ih =>
    by_cases hz : z.price < m.price
    · rcases ih z with h | h
      · exact Or.inr (by simp [minByPrice, hz, h])
      · exact Or.inr (by simp [minByPrice, hz]; exact Or.inr h)
    · rcases ih m with h | h
      · exact Or.inl (by simpa [minByPrice, hz] using h)
      · exact Or.inr (by simp [minByPrice, hz]; exact Or.inr h)

lemma minByPrice_ne_imp_lt (m : SwingPoint) (l : List SwingPoint) :
    minByPrice m l ≠ m → (minByPrice m l).price < m.price := by
  induction l generalizing m with
  | nil => intro h; exact absurd rfl h
  | cons z zs ih =>
    by_cases hz : z.price < m.price
    · intro _
      by_cases he : minByPrice z zs = z
      · rw [minByPrice, if_pos hz, he]; exact hz
      · have := ih z he
        rw [minByPrice, if_pos hz]
        exact lt_trans this hz
    · intro h
      rw [minByPrice, if_neg hz] at h ⊢
      exact ih m h

lemma minByPrice_tie_earliest (m : SwingPoint) (l : List SwingPoint)
    (hs : (m :: l).Pairwise (fun a b => a.date ≤ b.date)) :
    ∀ y, (y = m ∨ y ∈ l) → y.price = (minByPrice m l).price →
      (minByPrice m l).date ≤ y.date := by
  induction l generalizing m with
  | nil =>
    intro y hy _
    rcases hy with rfl | hy
    · exact le_refl _
    · exact absurd hy (List.not_mem_nil y)
  | cons z zs ih =>
    have hmz : m.date ≤ z.date := (List.pairwise_cons.mp hs).1 z (List.mem_cons_self z zs)
    have hs_tail : (z :: zs).Pairwise (fun a b => a.date ≤ b.date) :=
      (List.pairwise_cons.mp hs).2
    by_cases hz : z.price < m.price
    · intro y hy hp
      rw [minByPrice, if_pos hz] at hp ⊢
      rcases hy with hym | hy
      · exfalso
        have hle : (minByPrice z zs).price ≤ z.price := (minByPrice_price_le z zs).1
        rw [← hp, hym] at hle
        exact absurd (lt_of_lt_of_le hz hle) (lt_irrefl _)
      · exact ih z hs_tail y (List.mem_cons.mp hy) hp
    · intro y hy hp
      have hs_mzs : (m :: zs).Pairwise (fun a b => a.date ≤ b.date) := by
        have hsub : (m :: zs).Sublist (m :: z :: zs) :=
          List.Sublist.cons₂ m (List.sublist_cons_self z zs)
        exact List.Pairwise.sublist hsub hs
      rw [minByPrice, if_neg hz] at hp ⊢
      rcases hy with hym | hy
      · exact ih m hs_mzs y (Or.inl hym) hp
      · rcases List.mem_cons.mp hy with hyz | hy
        · -- the skipped head `z`: a tie forces the result to be `m` itself
          have h1 : (minByPrice m zs).price ≤ m.price := (minByPrice_price_le m zs).1
          have h2 : m.price ≤ y.price := by rw [hyz]; exact not_lt.mp hz
          have hpm : (minByPrice m zs).price = m.price :=
            le_antisymm h1 (hp ▸ h2)
          have hres : minByPrice m zs = m := by
            by_contra hne
            exact absurd (hpm ▸ minByPrice_ne_imp_lt m zs hne) (lt_irrefl _)
          rw [hres, hyz]
          exact hmz
        · exact ih m hs_mzs y (Or.inr hy) hp

/-! ### Facts about the individual stages -/

lemma validate_data_true_notes (cfg : VCPConfig) (df : PriceFrame) :
    (validate_data cfg df).1 = true → (validate_data cfg df).2 = [] := by
  simp only [validate_data]
  split
  · intro h; simp at h
  · split
    · intro h; simp at h
    · split
      · intro h; simp at h
      · intro _; rfl

lemma validate_data_false_notes (cfg : VCPConfig) (df : PriceFrame) :
    (validate_data cfg df).1 = false → (validate_data cfg df).2 ≠ [] := by
  simp only [validate_data]
  split
  · intro _; simp
  · split
    · intro _; simp
    · split
      · intro _; simp
      · intro h; simp at h

/-- The rejection note of the trend-template gate. -/
def trendTemplateNote (df : PriceFrame) : String :=
  "Trend Template: " ++ toString (passedCriteria df) ++ "/8 criteria passed"

lemma ctt_gate_verdict (df : PriceFrame) (sig : VCPSignal) :
    (check_trend_template df sig).1 = decide (6 ≤ passedCriteria df) := by
  simp only [check_trend_template]
  split
  · next h => exact (decide_eq_true h).symm
  · next h => exact (decide_eq_false h).symm

lemma ctt_trend_strength (df : PriceFrame) (sig : VCPSignal) :
    (check_trend_template df sig).2.1.trend_strength = (passedCriteria df : ℚ) / 8 := by
  simp only [check_trend_template]
  split <;> rfl

lemma ctt_frame (df : PriceFrame) (sig : VCPSignal) :
    (check_trend_template df sig).2.2 = assignMAs df := by
  simp only [check_trend_template]
  split <;> rfl

lemma ctt_preserves (df : PriceFrame) (sig : VCPSignal) :
    (check_trend_template df sig).2.1.detected = sig.detected ∧
    (check_trend_template df sig).2.1.pivot_price = sig.pivot_price ∧
    (check_trend_template df sig).2.1.contractions = sig.contractions := by
  simp only [check_trend_template]
  split <;> exact ⟨rfl, rfl, rfl⟩

lemma ctt_notes_reject (df : PriceFrame) (sig : VCPSignal) :
    (check_trend_template df sig).1 = false →
    (check_trend_template df sig).2.1.notes = sig.notes ++ [trendTemplateNote df] := by
  simp only [check_trend_template]
  split
  · intro h; simp at h
  · intro _; rfl

lemma ctt_notes_pass (df : PriceFrame) (sig : VCPSignal) :
    (check_trend_template df sig).1 = true →
    (check_trend_template df sig).2.1.notes = sig.notes := by
  simp only [check_trend_template]
  split
  · intro _; rfl
  · intro h; simp at h

lemma vvp_checks_ok_false_facts (cfg : VCPConfig) (cs : List Contraction)
    (sig s : VCPSignal)
    (h : validate_vcp_checks cfg cs sig = .ok (false, s)) :
    (∃ n, s.notes = sig.notes ++ [n]) ∧ s.detected = sig.detected ∧
    s.pivot_price = sig.pivot_price ∧ s.contractions = sig.contractions := by
  simp only [validate_vcp_checks] at h
  split at h
  · simp at h
  · split at h
    · rw [Except.ok.injEq, Prod.mk.injEq] at h
      rw [← h.2]
      exact ⟨⟨_, rfl⟩, rfl, rfl, rfl⟩
    · split at h
      · rw [Except.ok.injEq, Prod.mk.injEq] at h
        rw [← h.2]
        exact ⟨⟨_, rfl⟩, rfl, rfl, rfl⟩
      · split at h
        · rw [Except.ok.injEq, Prod.mk.injEq] at h
          rw [← h.2]
          exact ⟨⟨_, rfl⟩, rfl, rfl, rfl⟩
        · split at h <;> simp at h

lemma vvp_ok_false_facts (cfg : VCPConfig) (cons : List Contraction) (sig s : VCPSignal)
    (hmin : ¬ cons.length < cfg.min_contractions)
    (h : validate_vcp_pattern cfg cons sig = .ok (false, s)) :
    (∃ n, s.notes = sig.notes ++ [n]) ∧ s.detected = sig.detected ∧
    s.pivot_price = sig.pivot_price ∧ s.contractions = sig.contractions := by
  rw [validate_vcp_pattern, if_neg hmin] at h
  exact vvp_checks_ok_false_facts cfg _ sig s h

lemma vvp_checks_error_text (cfg : VCPConfig) (cs : List Contraction)
    (sig : VCPSignal) (e : String)
    (h : validate_vcp_checks cfg cs sig = .error e) : e = "division by zero" := by
  simp only [validate_vcp_checks] at h
  split at h
  · rw [Except.error.injEq] at h
    exact h.symm
  · split at h
    · simp at h
    · split at h
      · simp at h
      · split at h
        · simp at h
        · split at h <;> simp at h

lemma vvp_error_text (cfg : VCPConfig) (cons : List Contraction) (sig : VCPSignal)
    (e : String) (h : validate_vcp_pattern cfg cons sig = .error e) :
    e = "division by zero" := by
  rw [validate_vcp_pattern] at h
  split at h
  · simp at h
  · exact vvp_checks_error_text cfg _ sig e h

/-! ### Case analysis of `detect_vcp` -/

lemma vvp_empty_not_true (cfg : VCPConfig) (sig s : VCPSignal)
    (h : validate_vcp_pattern cfg [] sig = .ok (true, s)) : False := by
  rw [validate_vcp_pattern] at h
  split at h
  · simp at h
  · norm_num [validate_vcp_checks, keepLast, decreasingCount] at h

lemma cts_assignMAs (df : PriceFrame) :
    calculate_trend_strength (assignMAs df) = calculate_trend_strength df := rfl

lemma after_gate_frame (cfg : VCPConfig) (df : PriceFrame) (sig : VCPSignal) :
    (detect_after_gate cfg df sig).2 = df := by
  simp only [detect_after_gate]
  split
  · rfl
  · split
    · rfl
    · split <;> rfl

lemma after_gate_error_sig (cfg : VCPConfig) (df : PriceFrame) (sig : VCPSignal)
    (e : String) (s : VCPSignal)
    (h : (detect_after_gate cfg df sig).1 = .error (e, s)) :
    s = sig ∧ e = "division by zero" := by
  simp only [detect_after_gate] at h
  split at h
  · simp at h
  · split at h
    · simp at h
    · split at h
      · rename_i e' heq
        simp at h
        obtain ⟨he, hs⟩ := h
        subst he
        subst hs
        exact ⟨rfl, vvp_error_text _ _ _ _ heq⟩
      · simp at h
      · simp at h

lemma after_gate_ok_false_facts (cfg : VCPConfig) (df : PriceFrame) (sig : VCPSignal)
    (s : VCPSignal)
    (h : (detect_after_gate cfg df sig).1 = .ok s) (hdet : s.detected = false) :
    (∃ n, s.notes = sig.notes ++ [n]) ∧ s.detected = sig.detected ∧
    s.pivot_price = sig.pivot_price ∧ s.contractions = sig.contractions := by
  simp only [detect_after_gate] at h
  split at h
  · simp at h
    subst h
    exact ⟨⟨_, rfl⟩, rfl, rfl, rfl⟩
  · split at h
    · simp at h
      subst h
      exact ⟨⟨_, rfl⟩, rfl, rfl, rfl⟩
    · rename_i hmin
      split at h
      · simp at h
      · rename_i sig' heq
        simp at h
        subst h
        exact vvp_ok_false_facts cfg _ _ _ (by simpa using hmin) heq
      · simp at h
        subst h
        simp at hdet

lemma after_gate_detected_facts (cfg : VCPConfig) (df : PriceFrame) (sig : VCPSignal)
    (s : VCPSignal)
    (h : (detect_after_gate cfg df sig).1 = .ok s) (hdet : s.detected = true)
    (hsig : sig.detected = false) :
    ∃ cons : List Contraction,
      cons ≠ [] ∧
      s.contractions = some cons ∧
      s.trend_strength = calculate_trend_strength df ∧
      s.volume_dry_up = check_volume_dry_up cons ∧
      s.final_contraction_tightness = some ((cons.getLastD default).percent_drop) ∧
      s.confidence_score = calculate_confidence_score s cons.length s.volume_dry_up true := by
  simp only [detect_after_gate] at h
  split at h
  · simp at h
    subst h
    simp at hdet
    exact absurd hdet (by simp [hsig])
  · split at h
    · simp at h
      subst h
      simp at hdet
      exact absurd hdet (by simp [hsig])
    · rename_i hmin
      split at h
      · simp at h
      · rename_i sig' heq
        simp at h
        subst h
        obtain ⟨_, hd, _, _⟩ := vvp_ok_false_facts cfg _ _ _ (by simpa using hmin) heq
        rw [hd, hsig] at hdet
        simp at hdet
      · rename_i sig' heq
        simp at h
        subst h
        refine ⟨(identify_contractions df (find_swing_points df).1
          (find_swing_points df).2).2, ?_, rfl, rfl, rfl, ?_, ?_⟩
        · intro hnil
          rw [hnil] at heq
          exact vvp_empty_not_true _ _ _ heq
        · simp [List.getLastD_eq_getLast?]
        · rfl

lemma inner_error_sig (cfg : VCPConfig) (df : PriceFrame) (symbol : String)
    (e : String) (s : VCPSignal)
    (h : (detect_vcp_inner cfg df symbol).1 = .error (e, s)) :
    s.detected = false ∧ s.pivot_price = none ∧ s.contractions = none ∧
    e = "division by zero" := by
  simp only [detect_vcp_inner] at h
  split at h
  · simp at h
  · split at h
    · split at h
      · simp at h
      · obtain ⟨hs, he⟩ := after_gate_error_sig _ _ _ _ _ h
        subst hs
        exact ⟨(ctt_preserves _ _).1, (ctt_preserves _ _).2.1,
          (ctt_preserves _ _).2.2, he⟩
    · obtain ⟨hs, he⟩ := after_gate_error_sig _ _ _ _ _ h
      subst hs
      exact ⟨rfl, rfl, rfl, he⟩

lemma inner_ok_false_facts (cfg : VCPConfig) (df : PriceFrame) (symbol : String)
    (s : VCPSignal)
    (h : (detect_vcp_inner cfg df symbol).1 = .ok s) (hdet : s.detected = false) :
    s.notes ≠ [] ∧ s.pivot_price = none ∧ s.contractions = none := by
  simp only [detect_vcp_inner] at h
  split at h
  · rename_i hv
    simp at h
    subst h
    exact ⟨validate_data_false_notes cfg df (by simpa using hv), rfl, rfl⟩
  · split at h
    · split at h
      · rename_i hadm
        simp at h
        subst h
        simp at hadm
        rw [ctt_notes_reject _ _ hadm]
        exact ⟨by simp, (ctt_preserves _ _).2.1, (ctt_preserves _ _).2.2⟩
      · obtain ⟨⟨n, hn⟩, _, hp, hc⟩ := after_gate_ok_false_facts _ _ _ _ h hdet
        rw [hn, hp, hc]
        exact ⟨by simp, (ctt_preserves _ _).2.1, (ctt_preserves _ _).2.2⟩
    · obtain ⟨⟨n, hn⟩, _, hp, hc⟩ := after_gate_ok_false_facts _ _ _ _ h hdet
      rw [hn, hp, hc]
      exact ⟨by simp, rfl, rfl⟩

lemma inner_detected_facts (cfg : VCPConfig) (df : PriceFrame) (symbol : String)
    (s : VCPSignal)
    (h : (detect_vcp_inner cfg df symbol).1 = .ok s) (hdet : s.detected = true) :
    ∃ cons : List Contraction,
      cons ≠ [] ∧
      s.contractions = some cons ∧
      s.trend_strength = calculate_trend_strength df ∧
      s.volume_dry_up = check_volume_dry_up cons ∧
      s.final_contraction_tightness = some ((cons.getLastD default).percent_drop) ∧
      s.confidence_score = calculate_confidence_score s cons.length s.volume_dry_up true := by
  simp only [detect_vcp_inner] at h
  split at h
  · simp at h
    subst h
    simp at hdet
  · split at h
    · split at h
      · simp at h
        subst h
        rw [(ctt_preserves _ _).1] at hdet
        simp at hdet
      · obtain ⟨cons, hne, hc, hts, hv, hf, hcs⟩ :=
          after_gate_detected_facts _ _ _ _ h hdet ((ctt_preserves _ _).1)
        refine ⟨cons, hne, hc, ?_, hv, hf, hcs⟩
        rw [hts, ctt_frame, cts_assignMAs]
    · obtain ⟨cons, hne, hc, hts, hv, hf, hcs⟩ :=
        after_gate_detected_facts _ _ _ _ h hdet rfl
      exact ⟨cons, hne, hc, hts, hv, hf, hcs⟩

lemma detect_of_inner_ok (cfg : VCPConfig) (df : PriceFrame) (symbol : String)
    (s : VCPSignal) (h : (detect_vcp_inner cfg df symbol).1 = .ok s) :
    (detect_vcp cfg df symbol).1 = s := by
  unfold detect_vcp
  rcases hi : detect_vcp_inner cfg df symbol with ⟨r, df'⟩
  rw [hi] at h
  simp at h
  rw [h]

lemma detect_of_inner_error (cfg : VCPConfig) (df : PriceFrame) (symbol : String)
    (e : String) (s : VCPSignal)
    (h : (detect_vcp_inner cfg df symbol).1 = .error (e, s)) :
    (detect_vcp cfg df symbol).1 =
      { s with notes := s.notes ++ ["Error in VCP detection: " ++ e] } := by
  unfold detect_vcp
  rcases hi : detect_vcp_inner cfg df symbol with ⟨r, df'⟩
  rw [hi] at h
  simp at h
  rw [h]

lemma detect_frame_eq_inner (cfg : VCPConfig) (df : PriceFrame) (symbol : String) :
    (detect_vcp cfg df symbol).2 = (detect_vcp_inner cfg df symbol).2 := by
  unfold detect_vcp
  rcases hi : detect_vcp_inner cfg df symbol with ⟨r, df'⟩
  rcases r with ⟨e, sig⟩ | sig <;> rfl

lemma inner_frame_cases (cfg : VCPConfig) (df : PriceFrame) (symbol : String) :
    (detect_vcp_inner cfg df symbol).2 = df ∨
    (detect_vcp_inner cfg df symbol).2 = assignMAs df := by
  simp only [detect_vcp_inner]
  split
  · left; rfl
  · split
    · split
      · right
        exact ctt_frame _ _
      · right
        rw [after_gate_frame]
        exact ctt_frame _ _
    · left
      exact after_gate_frame _ _ _

lemma inner_frame_nogate (cfg : VCPConfig) (df : PriceFrame) (symbol : String)
    (hct : cfg.check_trend_template = false) :
    (detect_vcp_inner cfg df symbol).2 = df := by
  simp only [detect_vcp_inner, hct]
  split
  · rfl
  · exact after_gate_frame _ _ _

/-! ### The signal computed by the detector only depends on the OHLCV data -/

lemma assignMAs_idem (df : PriceFrame) : assignMAs (assignMAs df) = assignMAs df := rfl

lemma validate_data_assignMAs (cfg : VCPConfig) (df : PriceFrame) :
    validate_data cfg (assignMAs df) = validate_data cfg df := rfl

lemma check_trend_template_assignMAs (df : PriceFrame) (sig : VCPSignal) :
    check_trend_template (assignMAs df) sig = check_trend_template df sig := rfl

lemma find_swing_points_assignMAs (df : PriceFrame) :
    find_swing_points (assignMAs df) = find_swing_points df := rfl

lemma identify_contractions_assignMAs (df : PriceFrame) (sh sl : List SwingPoint) :
    identify_contractions (assignMAs df) sh sl = identify_contractions df sh sl := rfl

lemma calculate_pivot_price_assignMAs (df : PriceFrame) (cs : List Contraction) :
    calculate_pivot_price (assignMAs df) cs = calculate_pivot_price df cs := rfl

lemma check_breakout_assignMAs (cfg : VCPConfig) (df : PriceFrame) (p : ℚ) :
    check_breakout cfg (assignMAs df) p = check_breakout cfg df p := rfl

lemma assignMAs_dates (df : PriceFrame) : (assignMAs df).dates = df.dates := rfl

lemma after_gate_sig_assignMAs (cfg : VCPConfig) (df : PriceFrame) (sig : VCPSignal) :
    (detect_after_gate cfg (assignMAs df) sig).1 = (detect_after_gate cfg df sig).1 := by
  simp only [detect_after_gate, find_swing_points_assignMAs,
    identify_contractions_assignMAs, calculate_pivot_price_assignMAs,
    cts_assignMAs, check_breakout_assignMAs, assignMAs_dates]
  split
  · rfl
  · split
    · rfl
    · split <;> rfl

lemma inner_sig_assignMAs (cfg : VCPConfig) (df : PriceFrame) (symbol : String) :
    (detect_vcp_inner cfg (assignMAs df) symbol).1 =
    (detect_vcp_inner cfg df symbol).1 := by
  simp only [detect_vcp_inner, validate_data_assignMAs, check_trend_template_assignMAs]
  split
  · rfl
  · split
    · split
      · rfl
      · rfl
    · exact after_gate_sig_assignMAs cfg df _

lemma detect_fst (cfg : VCPConfig) (df : PriceFrame) (symbol : String) :
    (detect_vcp cfg df symbol).1 =
      (match (detect_vcp_inner cfg df symbol).1 with
       | .ok sig => sig
       | .error (e, sig) =>
         { sig with notes := sig.notes ++ ["Error in VCP detection: " ++ e] }) := by
  unfold detect_vcp
  rcases hi : detect_vcp_inner cfg df symbol with ⟨r, df'⟩
  rcases r with ⟨e, sig⟩ | sig <;> rfl

lemma detect_sig_assignMAs (cfg : VCPConfig) (df : PriceFrame) (symbol : String) :
    (detect_vcp cfg (assignMAs df) symbol).1 = (detect_vcp cfg df symbol).1 := by
  rw [detect_fst, detect_fst, inner_sig_assignMAs]

/-! ### Facts about the contraction assembler -/

lemma identify_eq (df : PriceFrame) (sh sl : List SwingPoint)
    (ha : 2 ≤ (recentOf df sh).length) (hb : 2 ≤ (recentOf df sl).length) :
    (identify_contractions df sh sl).2 =
      sortByStart ((List.range ((recentSorted df sh).length - 1)).filterMap
        (contractionAt df (recentSorted df sh) (recentSorted df sl))) := by
  have hc : ¬((recentOf df sh).length < 2 || (recentOf df sl).length < 2) = true := by
    simp only [Bool.or_eq_true, decide_eq_true_eq]
    omega
  simp only [identify_contractions, if_neg hc]

lemma contractionAt_isSome (df : PriceFrame) (rh rl : List SwingPoint) (i : Nat) :
    (contractionAt df rh rl i).isSome =
      !(subsequentLows rl (rh.getD i default)).isEmpty := by
  simp only [contractionAt]
  split <;> rename_i heq <;> rw [heq] <;> rfl

lemma contractionAt_spec (df : PriceFrame) (rh rl : List SwingPoint) (i : Nat)
    (hsorted : rl.Pairwise (fun a b => a.date ≤ b.date))
    (hne : subsequentLows rl (rh.getD i default) ≠ []) :
    ∃ m ∈ subsequentLows rl (rh.getD i default),
      contractionAt df rh rl i = some (mkContraction df (rh.getD i default) m) ∧
      (∀ y ∈ subsequentLows rl (rh.getD i default), m.price ≤ y.price) ∧
      (∀ y ∈ subsequentLows rl (rh.getD i default), y.price = m.price →
        m.date ≤ y.date) := by
  rcases hcand : subsequentLows rl (rh.getD i default) with _ | ⟨x, xs⟩
  · exact absurd hcand hne
  · have hsub : (x :: xs).Sublist rl := by
      rw [← hcand]
      exact List.filter_sublist rl
    have hsort_cand : (x :: xs).Pairwise (fun a b => a.date ≤ b.date) :=
      hsorted.sublist hsub
    have hmem : minByPrice x xs ∈ x :: xs := by
      rcases minByPrice_mem x xs with h | h
      · rw [h]; exact List.mem_cons_self x xs
      · exact List.mem_cons_of_mem x h
    refine ⟨minByPrice x xs, hmem, ?_, ?_, ?_⟩
    · simp only [contractionAt, hcand]
    · intro y hy
      rcases List.mem_cons.mp hy with hyx | hy
      · rw [hyx]; exact (minByPrice_price_le x xs).1
      · exact (minByPrice_price_le x xs).2 y hy
    · intro y hy hp
      exact minByPrice_tie_earliest x xs hsort_cand y (List.mem_cons.mp hy) hp

lemma contractionAt_mem_facts (df : PriceFrame) (rh rl : List SwingPoint) (i : Nat)
    (c : Contraction) (h : contractionAt df rh rl i = some c) :
    ∃ m ∈ subsequentLows rl (rh.getD i default),
      c = mkContraction df (rh.getD i default) m := by
  simp only [contractionAt] at h
  split at h
  · simp at h
  · rename_i x xs heq
    injection h with h
    have hmem : minByPrice x xs ∈ x :: xs := by
      rcases minByPrice_mem x xs with hm | hm
      · rw [hm]; exact List.mem_cons_self x xs
      · exact List.mem_cons_of_mem x hm
    refine ⟨minByPrice x xs, ?_, ?_⟩
    · rw [heq]; exact hmem
    · exact h.symm

lemma length_sortByStart (cs : List Contraction) :
    (sortByStart cs).length = cs.length :=
  (List.perm_insertionSort _ cs).length_eq

lemma mem_sortByStart {c : Contraction} {cs : List Contraction} :
    c ∈ sortByStart cs ↔ c ∈ cs :=
  (List.perm_insertionSort _ cs).mem_iff

lemma recentSorted_pairwise (df : PriceFrame) (pts : List SwingPoint) :
    (recentSorted df pts).Pairwise (fun a b => a.date ≤ b.date) :=
  List.sorted_insertionSort _ _

lemma length_recentSorted (df : PriceFrame) (pts : List SwingPoint) :
    (recentSorted df pts).length = (recentOf df pts).length :=
  (List.perm_insertionSort _ _).length_eq

/-! ### Facts about the scan driver -/

lemma scan_fold_eq (cfg : VCPConfig)
    (data_fetcher : String → Except String (Option PriceFrame)) :
    ∀ (tickers : List String) (acc : List VCPSignal),
      tickers.foldl (fun acc ticker =>
        match data_fetcher ticker with
        | .error _ => acc
        | .ok none => acc
        | .ok (some df) =>
          let s := (detect_vcp cfg df ticker).1
          if s.detected then acc ++ [s] else acc) acc
      = acc ++ tickers.filterMap (pickSignal cfg data_fetcher) := by
  intro tickers
  induction tickers with
  | nil => intro acc; simp
  | cons t ts ih =>
    intro acc
    simp only [List.foldl_cons, List.filterMap_cons]
    rcases hf : data_fetcher t with e | o
    · simp only [pickSignal, hf, ih]
    · rcases o with _ | df
      · simp only [pickSignal, hf, ih]
      · by_cases hd : (detect_vcp cfg df t).1.detected
        · simp only [pickSignal, hf, hd, if_pos, ih]
          simp [hd]
        · simp only [pickSignal, hf, ih]
          simp [hd]

lemma scan_eq_sort_filterMap (tickers : List String)
    (data_fetcher : String → Except String (Option PriceFrame)) (cfg : VCPConfig) :
    scan_for_vcp tickers data_fetcher cfg =
      List.insertionSort (fun a b => b.confidence_score ≤ a.confidence_score)
        (tickers.filterMap (pickSignal cfg data_fetcher)) := by
  unfold scan_for_vcp
  rw [scan_fold_eq]
  simp

/-! ### Claim theorems -/

set_option maxRecDepth 100000

/-- Claim C1: the claim states that a detected Signal carries at most
`max_contractions` contractions (only the last `max_contractions` surviving).
The code violates this: the truncation in `_validate_vcp_pattern` rebinds a
local variable, and `detect_vcp` stores the untruncated assembler output on
the Signal.  Evaluating the detector at the failing input (`cfgA` caps at 2,
`frameA` assembles 3): the signal is detected and carries all 3. -/
theorem C1_max_contractions_violated_eval :
    (detect_vcp cfgA frameA "A").1.detected = true ∧
    ((detect_vcp cfgA frameA "A").1.contractions.map List.length) = some 3 ∧
    cfgA.max_contractions = 2 ∧
    (detect_vcp cfgA frameA "A").1.confidence_score = 45 := by
  with_unfolding_all decide

/-- Claim C3: a raised internal exception (modelled: `detect_vcp_inner`
returning `.error`) never propagates: `detect_vcp` returns the accumulated
signal with `detected = false` and the exception text in `notes`. -/
theorem C3_internal_errors_contained (cfg : VCPConfig) (df : PriceFrame)
    (symbol : String) (e : String) (s : VCPSignal)
    (h : (detect_vcp_inner cfg df symbol).1 = .error (e, s)) :
    (detect_vcp cfg df symbol).1.detected = false ∧
    ("Error in VCP detection: " ++ e) ∈ (detect_vcp cfg df symbol).1.notes := by
  obtain ⟨hd, _, _, _⟩ := inner_error_sig cfg df symbol e s h
  rw [detect_of_inner_error cfg df symbol e s h]
  exact ⟨hd, by simp⟩

/-- Witness for C3: `frameC` with `min_contractions := 1` produces exactly one
contraction, so the pattern validator divides by zero; the exception is
caught and reported. -/
theorem C3_witness :
    (detect_vcp_inner cfgC frameC "C").1 =
      .error ("division by zero", { symbol := "C", detected := false, notes := [] }) ∧
    ((detect_vcp cfgC frameC "C").1.detected = false ∧
      ("Error in VCP detection: " ++ "division by zero") ∈
        (detect_vcp cfgC frameC "C").1.notes) :=
  ⟨by with_unfolding_all rfl,
   C3_internal_errors_contained cfgC frameC "C" "division by zero"
     { symbol := "C", detected := false, notes := [] }
     (by with_unfolding_all rfl)⟩

/-- Claim C8: a negative verdict always carries at least one diagnostic note,
and `pivot_price` and `contractions` stay `none`. -/
theorem C8_negative_signal_shape (cfg : VCPConfig) (df : PriceFrame)
    (symbol : String)
    (h : (detect_vcp cfg df symbol).1.detected = false) :
    (detect_vcp cfg df symbol).1.notes ≠ [] ∧
    (detect_vcp cfg df symbol).1.pivot_price = none ∧
    (detect_vcp cfg df symbol).1.contractions = none := by
  rcases hi : (detect_vcp_inner cfg df symbol).1 with ⟨e, s⟩ | s
  · obtain ⟨_, hp, hc, _⟩ := inner_error_sig cfg df symbol e s hi
    rw [detect_of_inner_error cfg df symbol e s hi]
    exact ⟨by simp, hp, hc⟩
  · rw [detect_of_inner_ok cfg df symbol s hi] at h ⊢
    exact inner_ok_false_facts cfg df symbol s hi h

/-- Witness for C8: the empty frame is rejected by the data validator with a
note and null pivot/contractions. -/
theorem C8_witness :
    (detect_vcp ({} : VCPConfig) frameE "E").1.detected = false ∧
    ((detect_vcp ({} : VCPConfig) frameE "E").1.notes ≠ [] ∧
     (detect_vcp ({} : VCPConfig) frameE "E").1.pivot_price = none ∧
     (detect_vcp ({} : VCPConfig) frameE "E").1.contractions = none) :=
  ⟨by with_unfolding_all decide,
   C8_negative_signal_shape ({} : VCPConfig) frameE "E" (by with_unfolding_all decide)⟩

lemma detect_detected_facts (cfg : VCPConfig) (df : PriceFrame) (symbol : String)
    (h : (detect_vcp cfg df symbol).1.detected = true) :
    ∃ cons : List Contraction,
      cons ≠ [] ∧
      (detect_vcp cfg df symbol).1.contractions = some cons ∧
      (detect_vcp cfg df symbol).1.trend_strength = calculate_trend_strength df ∧
      (detect_vcp cfg df symbol).1.volume_dry_up = check_volume_dry_up cons ∧
      (detect_vcp cfg df symbol).1.final_contraction_tightness =
        some ((cons.getLastD default).percent_drop) ∧
      (detect_vcp cfg df symbol).1.confidence_score =
        calculate_confidence_score (detect_vcp cfg df symbol).1 cons.length
          ((detect_vcp cfg df symbol).1.volume_dry_up) true := by
  rcases hi : (detect_vcp_inner cfg df symbol).1 with ⟨e, s⟩ | s
  · obtain ⟨hd, _, _, _⟩ := inner_error_sig cfg df symbol e s hi
    rw [detect_of_inner_error cfg df symbol e s hi] at h
    rw [show ({ s with notes := s.notes ++ ["Error in VCP detection: " ++ e] }
      : VCPSignal).detected = s.detected from rfl, hd] at h
    cases h
  · rw [detect_of_inner_ok cfg df symbol s hi] at h ⊢
    obtain ⟨cons, hne, hc, hts, hv, hf, hcs⟩ := inner_detected_facts cfg df symbol s hi h
    exact ⟨cons, hne, hc, hts, hv, hf, hcs⟩

lemma pickSignal_detected (cfg : VCPConfig)
    (fetcher : String → Except String (Option PriceFrame)) (t : String)
    (s : VCPSignal) (h : pickSignal cfg fetcher t = some s) : s.detected = true := by
  simp only [pickSignal] at h
  split at h
  · simp at h
  · simp at h
  · split at h
    · rename_i hd
      injection h with h
      rw [← h]
      exact hd
    · simp at h

/-- Claim C4 counterexample: `frameB` yields a detected signal whose final
contraction tightness is exactly 0.  The code's truthiness guard skips the
tightness bonus (confidence 25), while the claim's rubric — which awards 15
points whenever tightness ≤ 0.05, "including a tightness of exactly 0" —
yields 40. -/
theorem C4_counterexample :
    (detect_vcp cfgB frameB "B").1.detected = true ∧
    (detect_vcp cfgB frameB "B").1.final_contraction_tightness = some 0 ∧
    (detect_vcp cfgB frameB "B").1.trend_strength = 0 ∧
    (detect_vcp cfgB frameB "B").1.volume_dry_up = false ∧
    ((detect_vcp cfgB frameB "B").1.contractions.map List.length) = some 2 ∧
    (detect_vcp cfgB frameB "B").1.confidence_score = 25 ∧
    confidence_rubric_spec 0 2 false 0 = 40 := by
  with_unfolding_all decide

/-- Claim C4 as amended: on every detected Signal the confidence score equals
the additive rubric in which a missing tightness or a tightness of exactly 0
earns no tightness bonus (the other rows are as the claim states). -/
theorem C4_confidence_amended (cfg : VCPConfig) (df : PriceFrame) (symbol : String)
    (h : (detect_vcp cfg df symbol).1.detected = true) :
    ∃ cons : List Contraction,
      (detect_vcp cfg df symbol).1.contractions = some cons ∧
      (detect_vcp cfg df symbol).1.confidence_score =
        confidence_rubric_code (detect_vcp cfg df symbol).1.trend_strength
          cons.length (detect_vcp cfg df symbol).1.volume_dry_up
          (detect_vcp cfg df symbol).1.final_contraction_tightness := by
  obtain ⟨cons, _, hc, _, _, _, hcs⟩ := detect_detected_facts cfg df symbol h
  exact ⟨cons, hc, hcs⟩

/-- Witness for the amended C4 at a concrete detected signal. -/
theorem C4_witness :
    (detect_vcp cfgB frameB "B").1.detected = true ∧
    (∃ cons : List Contraction,
      (detect_vcp cfgB frameB "B").1.contractions = some cons ∧
      (detect_vcp cfgB frameB "B").1.confidence_score =
        confidence_rubric_code (detect_vcp cfgB frameB "B").1.trend_strength
          cons.length (detect_vcp cfgB frameB "B").1.volume_dry_up
          (detect_vcp cfgB frameB "B").1.final_contraction_tightness) :=
  ⟨by with_unfolding_all decide,
   C4_confidence_amended cfgB frameB "B" (by with_unfolding_all decide)⟩

/-- Claim C10: on every detected Signal, `trend_strength` is overwritten with
the MA20/MA50 rubric `_calculate_trend_strength` evaluated on the input frame
(the gate's k/8 does not survive detection), and the confidence score is
computed from the signal carrying that rubric value. -/
theorem C10_trend_strength_overwritten (cfg : VCPConfig) (df : PriceFrame)
    (symbol : String)
    (h : (detect_vcp cfg df symbol).1.detected = true) :
    (detect_vcp cfg df symbol).1.trend_strength = calculate_trend_strength df ∧
    ∃ cons : List Contraction,
      (detect_vcp cfg df symbol).1.contractions = some cons ∧
      (detect_vcp cfg df symbol).1.confidence_score =
        calculate_confidence_score (detect_vcp cfg df symbol).1 cons.length
          ((detect_vcp cfg df symbol).1.volume_dry_up) true := by
  obtain ⟨cons, _, hc, hts, _, _, hcs⟩ := detect_detected_facts cfg df symbol h
  exact ⟨hts, cons, hc, hcs⟩

/-- Witness for C10 at a concrete detected signal. -/
theorem C10_witness :
    (detect_vcp cfgB frameB "B").1.detected = true ∧
    ((detect_vcp cfgB frameB "B").1.trend_strength =
        calculate_trend_strength frameB ∧
      ∃ cons : List Contraction,
        (detect_vcp cfgB frameB "B").1.contractions = some cons ∧
        (detect_vcp cfgB frameB "B").1.confidence_score =
          calculate_confidence_score (detect_vcp cfgB frameB "B").1 cons.length
            ((detect_vcp cfgB frameB "B").1.volume_dry_up) true) :=
  ⟨by with_unfolding_all decide,
   C10_trend_strength_overwritten cfgB frameB "B" (by with_unfolding_all decide)⟩

/-- Claim C7: the trend-template gate admits iff at least 6 of the 8 criteria
pass (the threshold is the hardcoded source default), sets
`trend_strength := k/8`, appends the `"Trend Template: k/8 criteria passed"`
note exactly on rejection; inside `detect_vcp` a rejection (with the data
validator passing) yields a negative Signal carrying that note and `k/8`;
with `check_trend_template = false` the gate is bypassed entirely (the frame
is not even touched). -/
theorem C7_trend_template_gate (cfg : VCPConfig) (df : PriceFrame)
    (sig : VCPSignal) (symbol : String) :
    ((check_trend_template df sig).1 = true ↔ 6 ≤ passedCriteria df) ∧
    ((check_trend_template df sig).2.1.trend_strength =
      (passedCriteria df : ℚ) / 8) ∧
    ((check_trend_template df sig).1 = false →
      (check_trend_template df sig).2.1.notes =
        sig.notes ++ [trendTemplateNote df]) ∧
    (cfg.check_trend_template = true → (validate_data cfg df).1 = true →
      passedCriteria df < 6 →
      (detect_vcp cfg df symbol).1.detected = false ∧
      trendTemplateNote df ∈ (detect_vcp cfg df symbol).1.notes ∧
      (detect_vcp cfg df symbol).1.trend_strength =
        (passedCriteria df : ℚ) / 8) ∧
    (cfg.check_trend_template = false → (detect_vcp cfg df symbol).2 = df) := by
  refine ⟨?_, ctt_trend_strength df sig, ctt_notes_reject df sig, ?_, ?_⟩
  · rw [ctt_gate_verdict]
    simp
  · intro hct hvalid hk
    have hdec : decide (6 ≤ passedCriteria df) = false :=
      decide_eq_false (by omega)
    have hadm : ∀ s : VCPSignal, (check_trend_template df s).1 = false := fun s => by
      rw [ctt_gate_verdict]; exact hdec
    have hinner : (detect_vcp_inner cfg df symbol).1 =
        .ok ((check_trend_template df
          { symbol := symbol, detected := false,
            notes := [] ++ (validate_data cfg df).2 }).2.1) := by
      simp only [detect_vcp_inner, hct, hvalid, hadm, Bool.not_true, Bool.not_false,
        if_true, if_false, Bool.false_eq_true, ite_false, ite_true]
    rw [detect_of_inner_ok cfg df symbol _ hinner]
    refine ⟨(ctt_preserves _ _).1, ?_, ctt_trend_strength _ _⟩
    rw [ctt_notes_reject _ _ (hadm _)]
    simp
  · intro hct
    rw [detect_frame_eq_inner]
    exact inner_frame_nogate cfg df symbol hct

/-- Witness for C7: `frameB` under the default configuration passes the data
validator but only 1 of 8 trend criteria. -/
theorem C7_witness :
    ({} : VCPConfig).check_trend_template = true ∧
    (validate_data ({} : VCPConfig) frameB).1 = true ∧
    passedCriteria frameB < 6 ∧
    ((detect_vcp ({} : VCPConfig) frameB "B").1.detected = false ∧
     trendTemplateNote frameB ∈ (detect_vcp ({} : VCPConfig) frameB "B").1.notes ∧
     (detect_vcp ({} : VCPConfig) frameB "B").1.trend_strength =
       (passedCriteria frameB : ℚ) / 8) :=
  ⟨rfl, by with_unfolding_all decide, by with_unfolding_all decide,
   (C7_trend_template_gate ({} : VCPConfig) frameB
      { symbol := "B", detected := false } "B").2.2.2.1 rfl
      (by with_unfolding_all decide) (by with_unfolding_all decide)⟩

/-- Claim C5 counterexample: detecting on `frameB` with the default
configuration mutates the frame — the trend gate assigns the `MA_50`,
`MA_150`, `MA_200` columns onto it. -/
theorem C5_counterexample :
    (detect_vcp ({} : VCPConfig) frameB "B").2 ≠ frameB := by
  intro hEq
  have h1 : (detect_vcp ({} : VCPConfig) frameB "B").2.MA_50 = frameB.MA_50 := by
    rw [hEq]
  have h2 : (detect_vcp ({} : VCPConfig) frameB "B").2.MA_50.isSome = true := by
    with_unfolding_all decide
  rw [h1] at h2
  exact absurd h2 (by decide)

/-- Claim C5 as amended: the detector never changes the OHLCV data (dates,
Open, High, Low, Close, Volume) of the frame — the only mutation is the MA
columns added by the trend gate — and re-running the detector on the mutated
frame returns a Signal equal to the first. -/
theorem C5_purity_amended (cfg : VCPConfig) (df : PriceFrame) (symbol : String) :
    (detect_vcp cfg df symbol).2.dates = df.dates ∧
    (detect_vcp cfg df symbol).2.Open = df.Open ∧
    (detect_vcp cfg df symbol).2.High = df.High ∧
    (detect_vcp cfg df symbol).2.Low = df.Low ∧
    (detect_vcp cfg df symbol).2.Close = df.Close ∧
    (detect_vcp cfg df symbol).2.Volume = df.Volume ∧
    (detect_vcp cfg (detect_vcp cfg df symbol).2 symbol).1 =
      (detect_vcp cfg df symbol).1 := by
  have hcases := detect_frame_eq_inner cfg df symbol
  rcases inner_frame_cases cfg df symbol with hf | hf
  · rw [hcases, hf]
    exact ⟨rfl, rfl, rfl, rfl, rfl, rfl, rfl⟩
  · rw [hcases, hf]
    exact ⟨rfl, rfl, rfl, rfl, rfl, rfl, detect_sig_assignMAs cfg df symbol⟩

/-- Claim C2 counterexample: in `dfPlain` with swing highs at dates 40 and 50
and swing lows at 42 and 55, the high at date 50 is a recent swing high with
a recent swing low strictly after it (date 55), yet the assembler emits only
a single contraction, the one starting at date 40 — the loop
`range(len(recent_highs) - 1)` never considers the last recent high. -/
theorem C2_counterexample :
    ((identify_contractions dfPlain shC2 slC2).2.map (fun c => c.start_date)
      = [40]) ∧
    ((recentSorted dfPlain shC2).map (fun p => p.date) = [40, 50]) ∧
    (∃ l ∈ recentSorted dfPlain slC2, (50 : Int) < l.date) := by
  with_unfolding_all decide

/-- Claim C2 as amended: when both restricted lists have at least 2 entries,
the assembler emits exactly one contraction for every recent swing high
*except the last one* (in date order) that has a recent swing low strictly
after its date, pairing it with the minimum-price such low (earliest date on
ties) and setting `percent_drop = (high − low) / high`; highs without a
subsequent low, and the last recent high, produce nothing.  (With fewer than
2 recent highs or lows the output is empty.) -/
theorem C2_assembler_amended (df : PriceFrame) (sh sl : List SwingPoint)
    (ha : 2 ≤ (recentOf df sh).length) (hb : 2 ≤ (recentOf df sl).length) :
    (identify_contractions df sh sl).2.length =
      ((List.range ((recentSorted df sh).length - 1)).filter
        (fun i => !(subsequentLows (recentSorted df sl)
          ((recentSorted df sh).getD i default)).isEmpty)).length ∧
    (∀ i, i < (recentSorted df sh).length - 1 →
      subsequentLows (recentSorted df sl) ((recentSorted df sh).getD i default) ≠ [] →
      ∃ c ∈ (identify_contractions df sh sl).2,
        c.start_date = ((recentSorted df sh).getD i default).date ∧
        c.high_price = ((recentSorted df sh).getD i default).price ∧
        c.percent_drop = (c.high_price - c.low_price) / c.high_price ∧
        (∃ l ∈ subsequentLows (recentSorted df sl)
            ((recentSorted df sh).getD i default),
          c.low_price = l.price ∧ c.end_date = l.date) ∧
        (∀ l ∈ subsequentLows (recentSorted df sl)
            ((recentSorted df sh).getD i default),
          c.low_price ≤ l.price) ∧
        (∀ l ∈ subsequentLows (recentSorted df sl)
            ((recentSorted df sh).getD i default),
          l.price = c.low_price → c.end_date ≤ l.date)) := by
  constructor
  · rw [identify_eq df sh sl ha hb, length_sortByStart,
      length_filterMap_eq_length_filter]
    congr 1
    exact List.filter_congr (fun i _ => contractionAt_isSome df _ _ i)
  · intro i hi hne
    obtain ⟨m, hm, hCA, hmin, htie⟩ :=
      contractionAt_spec df (recentSorted df sh) (recentSorted df sl) i
        (recentSorted_pairwise df sl) hne
    refine ⟨mkContraction df ((recentSorted df sh).getD i default) m, ?_, rfl,
      rfl, rfl, ⟨m, hm, rfl, rfl⟩, ?_, ?_⟩
    · rw [identify_eq df sh sl ha hb, mem_sortByStart]
      exact List.mem_filterMap.mpr ⟨i, List.mem_range.mpr hi, hCA⟩
    · exact hmin
    · exact htie

/-- Witness for the amended C2 at the concrete input of the counterexample:
exactly one qualifying non-final recent high, hence one contraction. -/
theorem C2_witness :
    2 ≤ (recentOf dfPlain shC2).length ∧ 2 ≤ (recentOf dfPlain slC2).length ∧
    (identify_contractions dfPlain shC2 slC2).2.length =
      ((List.range ((recentSorted dfPlain shC2).length - 1)).filter
        (fun i => !(subsequentLows (recentSorted dfPlain slC2)
          ((recentSorted dfPlain shC2).getD i default)).isEmpty)).length :=
  ⟨by with_unfolding_all decide, by with_unfolding_all decide,
   (C2_assembler_amended dfPlain shC2 slC2 (by with_unfolding_all decide)
      (by with_unfolding_all decide)).1⟩

/-- Claim C9 counterexample: with swing lows priced at the swing high's own
price, the assembler emits a contraction with `high_price = low_price` and
`percent_drop = 0` — neither `high_price > low_price` nor
`percent_drop ∈ (0,1)` holds. -/
theorem C9_counterexample :
    ∃ c ∈ (identify_contractions dfPlain shC9 slC9).2,
      ¬(c.low_price < c.high_price) ∧ ¬(0 < c.percent_drop) := by
  with_unfolding_all decide

/-- Claim C9 as amended: every contraction emitted by the assembler satisfies
`start_date < end_date`, `duration_days = end_date − start_date`, and
`percent_drop = (high_price − low_price) / high_price`; `high_price >
low_price` and `percent_drop ∈ (0,1)` are not enforced (a paired low may be
priced at or above its high). -/
theorem C9_contraction_invariants_amended (df : PriceFrame)
    (sh sl : List SwingPoint) :
    ∀ c ∈ (identify_contractions df sh sl).2,
      c.start_date < c.end_date ∧
      c.duration_days = c.end_date - c.start_date ∧
      c.percent_drop = (c.high_price - c.low_price) / c.high_price := by
  intro c hc
  simp only [identify_contractions] at hc
  split at hc
  · have hc' : c ∈ ([] : List Contraction) := hc
    simp at hc'
  · have hc' : c ∈ sortByStart ((List.range ((recentSorted df sh).length - 1)).filterMap
      (contractionAt df (recentSorted df sh) (recentSorted df sl))) := hc
    rw [mem_sortByStart] at hc'
    obtain ⟨i, _, hCA⟩ := List.mem_filterMap.mp hc'
    obtain ⟨m, hm, hcm⟩ := contractionAt_mem_facts df _ _ i c hCA
    have hlt : ((recentSorted df sh).getD i default).date < m.date :=
      of_decide_eq_true (List.mem_filter.mp hm).2
    subst hcm
    exact ⟨hlt, rfl, rfl⟩

/-- The single contraction the assembler produces from `shC9`/`slC9`. -/
def c9c : Contraction :=
  { start_date := 40, end_date := 42, high_price := 100, low_price := 100,
    percent_drop := 0, avg_volume := 1000000, duration_days := 2 }

/-- Witness for the amended C9 at a concrete emitted contraction. -/
theorem C9_witness :
    c9c ∈ (identify_contractions dfPlain shC9 slC9).2 ∧
    (c9c.start_date < c9c.end_date ∧
     c9c.duration_days = c9c.end_date - c9c.start_date ∧
     c9c.percent_drop = (c9c.high_price - c9c.low_price) / c9c.high_price) :=
  have hlist : (identify_contractions dfPlain shC9 slC9).2 = [c9c] := by
    with_unfolding_all rfl
  have hmem : c9c ∈ (identify_contractions dfPlain shC9 slC9).2 := by
    rw [hlist]; exact List.mem_singleton_self c9c
  ⟨hmem, C9_contraction_invariants_amended dfPlain shC9 slC9 c9c hmem⟩

/-- Claim C6 counterexample: two symbols fetching the same detected frame get
equal confidence scores; the scan returns them in input order `["ZZ", "AA"]`,
not in the symbol-ascending order `["AA", "ZZ"]` the claim requires
(`"AA" < "ZZ"` lexicographically). -/
theorem C6_counterexample :
    ((scan_for_vcp ["ZZ", "AA"] (fun _ => .ok (some frameB)) cfgB).map
        (fun s => s.symbol) = ["ZZ", "AA"]) ∧
    ((scan_for_vcp ["ZZ", "AA"] (fun _ => .ok (some frameB)) cfgB).map
        (fun s => s.confidence_score) = [25, 25]) ∧
    ("AA" < "ZZ") := by
  with_unfolding_all decide

/-- Claim C6 as amended: the scan driver returns exactly the detected
Signals, sorted by confidence descending with ties kept in input (collection)
order — the Python sort is stable — and a fetch returning null or throwing
skips that symbol without aborting the batch. -/
theorem C6_scan_driver_amended :
    (∀ (tickers : List String) fetcher (cfg : VCPConfig),
      scan_for_vcp tickers fetcher cfg =
        List.insertionSort (fun a b => b.confidence_score ≤ a.confidence_score)
          (tickers.filterMap (pickSignal cfg fetcher))) ∧
    (∀ (tickers : List String) fetcher (cfg : VCPConfig) (s : VCPSignal),
      s ∈ scan_for_vcp tickers fetcher cfg → s.detected = true) ∧
    (∀ (tickers : List String) fetcher (cfg : VCPConfig),
      List.Sorted (fun a b => b.confidence_score ≤ a.confidence_score)
        (scan_for_vcp tickers fetcher cfg)) ∧
    (∀ (tickers : List String) fetcher (cfg : VCPConfig),
      (scan_for_vcp tickers fetcher cfg).Perm
        (tickers.filterMap (pickSignal cfg fetcher))) ∧
    (∀ (t : String) (ts : List String) fetcher (cfg : VCPConfig),
      (fetcher t = .ok none ∨ ∃ e, fetcher t = .error e) →
      scan_for_vcp (t :: ts) fetcher cfg = scan_for_vcp ts fetcher cfg) := by
  refine ⟨scan_eq_sort_filterMap, ?_, ?_, ?_, ?_⟩
  · intro tickers fetcher cfg s hs
    rw [scan_eq_sort_filterMap] at hs
    have hmem : s ∈ tickers.filterMap (pickSignal cfg fetcher) :=
      (List.perm_insertionSort _ _).mem_iff.mp hs
    obtain ⟨t, _, hps⟩ := List.mem_filterMap.mp hmem
    exact pickSignal_detected cfg fetcher t s hps
  · intro tickers fetcher cfg
    rw [scan_eq_sort_filterMap]
    exact List.sorted_insertionSort _ _
  · intro tickers fetcher cfg
    rw [scan_eq_sort_filterMap]
    exact List.perm_insertionSort _ _
  · intro t ts fetcher cfg h
    rcases h with hnone | ⟨e, herr⟩
    · simp only [scan_for_vcp, List.foldl_cons, hnone]
    · simp only [scan_for_vcp, List.foldl_cons, herr]

/-- Witness for the amended C6: a throwing fetcher skips its symbol. -/
theorem C6_witness :
    scan_for_vcp ["A"] (fun _ => Except.error "boom") cfgB =
      scan_for_vcp [] (fun _ => Except.error "boom") cfgB :=
  C6_scan_driver_amended.2.2.2.2 "A" [] (fun _ => Except.error "boom") cfgB
    (Or.inr ⟨"boom", rfl⟩)
